import Mathlib

/-!
Verification of the session-correlation and multi-channel delivery router of
the claude-code-anywhere repository, against its natural-language specification.

JavaScript strings are modelled as lists of UTF-16 code units (`JSString`),
so that `string.length`, `substring`, and character-level operations agree
exactly with the JavaScript semantics (astral-plane emoji count as two units,
as they do for JS `.length`).
-/

namespace CCA

/-- JavaScript string: a sequence of UTF-16 code units. -/
abbrev JSString := List Nat

/-- The UTF-16 code units of one Unicode character (surrogate pair above BMP). -/
def charUnits (c : Char) : List Nat :=
  let v := c.toNat
  if v < 65536 then [v]
  else [55296 + (v - 65536) / 1024, 56320 + (v - 65536) % 1024]

/-- Convert a Lean string literal to its JS (UTF-16) representation. -/
def jsStr (s : String) : JSString :=
  (s.data.map charUnits).flatten

/-- The JavaScript `s.length` (number of UTF-16 code units). -/
def jsLength (s : JSString) : Nat := s.length

/-- Code units treated as whitespace by JS `\s` and `String.prototype.trim`. -/
def isJsWhitespace (u : Nat) : Bool :=
  u == 9 || u == 10 || u == 11 || u == 12 || u == 13 || u == 32 ||
  u == 160 || u == 5760 || (8192 ≤ u && u ≤ 8202) ||
  u == 8232 || u == 8233 || u == 8239 || u == 8287 || u == 12288 || u == 65279

/-- JS `String.prototype.trim`: strip whitespace from both ends. -/
def jsTrim (s : JSString) : JSString :=
  ((s.dropWhile isJsWhitespace).reverse.dropWhile isJsWhitespace).reverse

/-- JS `message.substring(0, e)` where `e` may be negative (clamped to 0). -/
def jsTakeInt (s : JSString) (e : Int) : JSString := s.take e.toNat

/-- Hexadecimal code unit, case-insensitive: the character class `[a-f0-9]`
under the `i` regex flag. -/
def isHexDigitU (u : Nat) : Bool :=
  (48 ≤ u && u ≤ 57) || (97 ≤ u && u ≤ 102) || (65 ≤ u && u ≤ 70)

/-- ASCII lower-casing of one code unit (how the `i` regex flag compares). -/
def toLowerU (u : Nat) : Nat := if 65 ≤ u && u ≤ 90 then u + 32 else u

/-- Case-insensitive comparison of single code units. -/
def ciEqU (a b : Nat) : Bool := toLowerU a == toLowerU b

/-- Case-insensitive equality of JS strings (ASCII case folding, as the `i`
regex flag behaves on the ASCII literals used in this code base). -/
def ciEq : JSString → JSString → Bool
  | [], [] => true
  | a :: as_, b :: bs => ciEqU a b && ciEq as_ bs
  | _, _ => false

/-- Does `hay` start with `needle` (exact match)? -/
def startsWithSeq : JSString → JSString → Bool
  | [], _ => true
  | _ :: _, [] => false
  | a :: as_, b :: bs => a == b && startsWithSeq as_ bs

/-- Does `hay` contain `needle` as a contiguous subsequence? -/
def containsSeq (needle : JSString) : JSString → Bool
  | [] => needle.isEmpty
  | h :: t => startsWithSeq needle (h :: t) || containsSeq needle t

/-- Case-insensitively strip `p` from the front of `s`, if it is a prefix. -/
def ciStripFront : JSString → JSString → Option JSString
  | [], s => some s
  | _ :: _, [] => none
  | a :: as_, b :: bs => if ciEqU a b then ciStripFront as_ bs else none

/-! ## `src/server/messages.ts` — outbound formatting

`formatMessage` from `src/src/server/messages.ts` (lines 47-61); the compiled
`formatSMSMessage` in `src/dist/server/twilio.js` (lines 8-20) is
character-for-character the same algorithm with the same constant 1500. -/

/-- Hook event types (`src/shared/types.ts`). -/
inductive HookEvent where
  | Notification
  | Stop
  | PreToolUse
  | UserPromptSubmit
deriving DecidableEq, Repr

/-- Constant `MAX_MESSAGE_LENGTH` in messages.ts (= `MAX_SMS_LENGTH` in twilio.js). -/
def MAX_MESSAGE_LENGTH : Nat := 1500

/-- Source `getEventEmoji` — the `default` arm of the source switch is
unreachable because `HookEvent` has exactly these four values. -/
def getEventEmoji : HookEvent → JSString
  | .Notification => jsStr "📢"
  | .Stop => jsStr "✅"
  | .PreToolUse => jsStr "⚠️"
  | .UserPromptSubmit => jsStr "🤖"

/-- Source `getEventHeader` — the `default` arm of the switch is unreachable. -/
def getEventHeader : HookEvent → JSString
  | .Notification => jsStr "Notification:"
  | .Stop => jsStr "Session ended:"
  | .PreToolUse => jsStr "Approve tool use?"
  | .UserPromptSubmit => jsStr "Claude needs input:"

/-- Source `formatMessage(sessionId, event, message)`, messages.ts lines 47-61. -/
def formatMessage (sessionId : JSString) (event : HookEvent) (message : JSString) :
    JSString :=
  let pfx := jsStr "[CC-" ++ sessionId ++ jsStr "] "
  let emoji := getEventEmoji event
  let header := getEventHeader event
  let fullMessage :=
    pfx ++ emoji ++ jsStr " " ++ header ++ jsStr "\n\n" ++ message ++
      jsStr "\n\nReply with your response"
  if jsLength fullMessage > MAX_MESSAGE_LENGTH then
    let available : Int :=
      (MAX_MESSAGE_LENGTH : Int) - jsLength pfx - jsLength emoji - jsLength header - 30
    let truncated := jsTakeInt message (available - 3) ++ jsStr "..."
    pfx ++ emoji ++ jsStr " " ++ header ++ jsStr "\n\n" ++ truncated ++
      jsStr "\n\nReply with your response"
  else
    fullMessage

/-! ## `src/server/messages.ts` — reply parsing (`MessagesClient.parseMessage`) -/

/-- Parsed inbound message (`ParsedSMS` in `src/shared/types.ts`). -/
structure ParsedSMS where
  sessionId : Option JSString
  response : JSString
deriving DecidableEq, Repr

/-- The regex `^\[CC-([a-f0-9]+)\]\s*` with the `i` flag: on success returns
the captured id and the text after the whole match (`]` plus greedy `\s*`).
The hex run is greedy; since `]` is not a hex character the match is
deterministic. -/
def ccMatch (text : JSString) : Option (JSString × JSString) :=
  match text with
  | a :: b :: c :: d :: rest =>
    if ciEqU a 91 && ciEqU b 67 && ciEqU c 67 && ciEqU d 45 then
      let idPart := rest.takeWhile isHexDigitU
      match rest.drop idPart.length with
      | x :: rest3 =>
        if x == 93 && !idPart.isEmpty then
          some (idPart, rest3.dropWhile isJsWhitespace)
        else none
      | [] => none
    else none
  | _ => none

/-- Source `MessagesClient.parseMessage` (messages.ts lines 391-409). -/
def parseMessage (text : JSString) : ParsedSMS :=
  match ccMatch text with
  | some (sessionId, rest) => { sessionId := some sessionId, response := jsTrim rest }
  | none => { sessionId := none, response := jsTrim text }

/-! ## `src/server/messages.ts` — echo/dedup filter and poll loop

`MessagesClient` keeps `sentMessageHashes : Map<string, number>` (fingerprint
to send timestamp) and `lastMessageId` (the provider-sequence watermark).
The fingerprint is `hashMessage(text)`, a 32-bit signed hash rendered with
`toString(16)`; since that rendering is injective on 32-bit integers, the
map key is modelled by the 32-bit integer value itself. -/

/-- Wrap an integer to a 32-bit signed value (JS `| 0`). -/
def toInt32 (n : Int) : Int :=
  let m := n % 4294967296
  if m < 2147483648 then m else m - 4294967296

/-- One step of the hash loop:
`hash = ((hash << 5) - hash) + text.charCodeAt(i); hash |= 0`.
`hash << 5` wraps to 32 bits before the subtraction; the subtraction and
addition are exact (they stay far below 2^53) and `|= 0` wraps the result. -/
def hashStep (hash : Int) (c : Nat) : Int :=
  toInt32 (toInt32 (hash * 32) - hash + c)

/-- Source `MessagesClient.hashMessage` (messages.ts lines 124-131), as the 32-bit
value underlying the hex-string key. -/
def hashMessage (text : JSString) : Int :=
  text.foldl hashStep 0

/-- JS `Map.set`: update in place if the key exists (keeping insertion order),
otherwise append. -/
def mapSetInt (m : List (Int × Int)) (k : Int) (v : Int) : List (Int × Int) :=
  if m.any (fun p => p.1 == k) then
    m.map (fun p => if p.1 == k then (k, v) else p)
  else m ++ [(k, v)]

/-- Constant `SENT_MESSAGE_TTL_MS` (messages.ts line 115). -/
def SENT_MESSAGE_TTL_MS : Int := 60000

/-- Mutable state of `MessagesClient` relevant to the echo/dedup filter:
the fingerprint map and the provider-sequence watermark. -/
structure MessagesState where
  sentMessageHashes : List (Int × Int)
  lastMessageId : Int
deriving DecidableEq, Repr

/-- Source `MessagesClient.trackSentMessage` (messages.ts lines 136-144): record the
fingerprint at the current time, then lazily prune entries older than the TTL. -/
def trackSentMessage (st : MessagesState) (now : Int) (text : JSString) :
    MessagesState :=
  let hash := hashMessage text
  let m1 := mapSetInt st.sentMessageHashes hash now
  let cutoff := now - SENT_MESSAGE_TTL_MS
  { st with sentMessageHashes := m1.filter (fun p => !(p.2 < cutoff)) }

/-- Source `MessagesClient.wasSentByUs` (messages.ts lines 149-152): presence check
only — the entry's timestamp is NOT compared against the TTL here. -/
def wasSentByUs (st : MessagesState) (text : JSString) : Bool :=
  st.sentMessageHashes.any (fun p => p.1 == hashMessage text)

/-- One inbound item from the `imsg history` poll (`ImsgMessage`). -/
structure ImsgMessage where
  id : Int
  is_from_me : Bool
  sender : JSString
  text : JSString
deriving DecidableEq, Repr

/-- Source `MessagesClient.checkForNewMessages` (messages.ts lines 351-386) on one
poll batch: skip items flagged `is_from_me`, echoes of tracked sends, and
items at or below the watermark; advance the watermark and deliver the rest.
Returns the new state and the delivered items in delivery order (each
delivered item results in one `callback(parseMessage(item.text))` call). -/
def checkForNewMessages (st : MessagesState) :
    List ImsgMessage → MessagesState × List ImsgMessage
  | [] => (st, [])
  | m :: rest =>
    if m.is_from_me then checkForNewMessages st rest
    else if wasSentByUs st m.text then checkForNewMessages st rest
    else if m.id ≤ st.lastMessageId then checkForNewMessages st rest
    else
      let res := checkForNewMessages { st with lastMessageId := m.id } rest
      (res.1, m :: res.2)

/-- A sequence of poll cycles: fold `checkForNewMessages` over the batches,
concatenating the delivered items. -/
def processPolls (st : MessagesState) :
    List (List ImsgMessage) → MessagesState × List ImsgMessage
  | [] => (st, [])
  | batch :: more =>
    let r1 := checkForNewMessages st batch
    let r2 := processPolls r1.1 more
    (r2.1, r1.2 ++ r2.2)

/-! ## `src/dist/server/webhook-signature.js` — Telnyx signature verification

The Node crypto primitives (`Buffer.from(·, 'base64')`, `createPublicKey`,
`verify`) are external collaborators; they are abstracted as a record of
possibly-failing functions, and `verify` as a total boolean. The control flow
around them is translated exactly from `verifyTelnyxSignature`. -/

/-- Abstract crypto primitives used by the verifier. -/
structure CryptoPrims where
  decodeBase64 : JSString → Option (List Nat)
  createPublicKey : JSString → Option Nat
  verifySig : JSString → Nat → List Nat → Bool

/-- Constant `MAX_TIMESTAMP_AGE_SECONDS` (webhook-signature.js line 9). -/
def MAX_TIMESTAMP_AGE_SECONDS : Int := 300

/-- Constant `MAX_TIMESTAMP_FUTURE_SECONDS` (webhook-signature.js line 11). -/
def MAX_TIMESTAMP_FUTURE_SECONDS : Int := 60

/-- Decimal digit code unit. -/
def isDigitU (u : Nat) : Bool := 48 ≤ u && u ≤ 57

/-- Numeric value of a digit run. -/
def digitsVal (l : JSString) : Int :=
  l.foldl (fun acc u => acc * 10 + ((u : Int) - 48)) 0

/-- JS `parseInt(s, 10)`: skip leading whitespace, optional sign, then the
longest run of decimal digits; `NaN` (here `none`) when no digit follows. -/
def jsParseInt (s : JSString) : Option Int :=
  let s1 := s.dropWhile isJsWhitespace
  let signAndRest : Int × JSString :=
    match s1 with
    | 43 :: r => (1, r)
    | 45 :: r => (-1, r)
    | r => (1, r)
  let digits := signAndRest.2.takeWhile isDigitU
  if digits.isEmpty then none else some (signAndRest.1 * digitsVal digits)

/-- Source `verifyTelnyxSignature` (webhook-signature.js lines 22-69). `now` is
`Math.floor(Date.now() / 1000)`. A thrown `Error` is `Except.error` with the
thrown message; `Except.ok` is the returned boolean. -/
def verifyTelnyxSignature (cp : CryptoPrims) (now : Int) (body : JSString)
    (signatureHeader : JSString) (timestampHeader : JSString)
    (publicKeyPem : JSString) : Except String Bool :=
  if signatureHeader.isEmpty then
    .error "Webhook signature header is required"
  else if timestampHeader.isEmpty then
    .error "Webhook timestamp header is required"
  else
    match jsParseInt timestampHeader with
    | none => .error "Webhook timestamp is invalid: not a number"
    | some timestamp =>
      let age := now - timestamp
      if age > MAX_TIMESTAMP_AGE_SECONDS then .ok false
      else if age < -MAX_TIMESTAMP_FUTURE_SECONDS then .ok false
      else
        let payload := timestampHeader ++ jsStr "|" ++ body
        match cp.decodeBase64 signatureHeader with
        | none => .ok false
        | some signatureBuffer =>
          match cp.createPublicKey publicKeyPem with
          | none => .error "Invalid public key format"
          | some publicKey => .ok (cp.verifySig payload publicKey signatureBuffer)

/-! ## Session registry

The registry implementation (`src/server/sessions.ts`) is not present in the
repository snapshot — only its callers and re-export declarations are — so
its state and operations are modelled from the specification (§3, §4.1),
with the record field names taken from `src/shared/types.ts`. -/

/-- Record `PendingResponse` (`src/shared/types.ts`). -/
structure PendingResponse where
  event : HookEvent
  prompt : JSString
  timestamp : Int
deriving DecidableEq, Repr

/-- Record `Session` (`src/shared/types.ts`). -/
structure Session where
  id : JSString
  createdAt : Int
  lastActivity : Int
  enabled : Bool
  pendingResponse : Option PendingResponse
deriving DecidableEq, Repr

/-- Record `SMSResponse` (`src/shared/types.ts`) — the spec's StoredResponse:
`{sessionId, responseText, originChannelIdentity, timestamp}`. -/
structure SMSResponse where
  sessionId : JSString
  response : JSString
  from_ : JSString
  timestamp : Int
deriving DecidableEq, Repr

/-- Modelled from the spec: the Session Registry's in-memory state — the
session map and the single pending StoredResponse slot per session id
(`sessions.ts` is missing from the snapshot; §3, §4.1). -/
structure SessionRegistry where
  sessions : List (JSString × Session)
  responses : List (JSString × SMSResponse)
deriving DecidableEq, Repr

/-- Lookup in an association list keyed by JS strings (spec-level map read). -/
def regLookup {α : Type} (m : List (JSString × α)) (k : JSString) : Option α :=
  (m.find? (fun p => p.1 == k)).map Prod.snd

/-- Upsert into an association list keyed by JS strings (JS `Map.set`). -/
def regSet {α : Type} (m : List (JSString × α)) (k : JSString) (v : α) :
    List (JSString × α) :=
  if m.any (fun p => p.1 == k) then
    m.map (fun p => if p.1 == k then (k, v) else p)
  else m ++ [(k, v)]

/-- Modelled from the spec: `hasSession(id) -> bool` (§4.1; `sessions.ts`
missing). -/
def hasSession (reg : SessionRegistry) (id : JSString) : Bool :=
  reg.sessions.any (fun p => p.1 == id)

/-- Modelled from the spec: `getActiveSessionIds() -> ordered list` (§4.1;
`sessions.ts` missing). -/
def getActiveSessionIds (reg : SessionRegistry) : List JSString :=
  reg.sessions.map Prod.fst

/-- Modelled from the spec: `storeResponse(id, text, origin)` records a
StoredResponse keyed by session id, overwriting any prior unconsumed response
for that id (§4.1; `sessions.ts` missing). -/
def storeResponse (reg : SessionRegistry) (id : JSString) (text : JSString)
    (origin : JSString) (now : Int) : SessionRegistry :=
  { reg with
    responses :=
      regSet reg.responses id ⟨id, text, origin, now⟩ }

/-- Modelled from the spec: `consumeResponse(id) -> StoredResponse | none`,
an atomic read-and-clear — read the slot, then delete the key (§4.1;
`sessions.ts` missing). -/
def consumeResponse (reg : SessionRegistry) (id : JSString) :
    Option SMSResponse × SessionRegistry :=
  (regLookup reg.responses id,
   { reg with responses := reg.responses.filter (fun p => !(p.1 == id)) })

/-- Modelled from the spec: `parseSessionFromSMS` — rule 1 of §4.3: text
starting with the literal correlation prefix `[CC-<id>]` (case-insensitive)
is stripped, the remainder returned as the response text with that id;
otherwise the id is unresolved (`sessions.ts` missing). -/
def parseSessionFromSMS (text : JSString) : ParsedSMS :=
  match ciStripFront (jsStr "[CC-") text with
  | none => { sessionId := none, response := jsTrim text }
  | some afterPre =>
    let idPart := afterPre.takeWhile (fun u => !(u == 93))
    match afterPre.drop idPart.length with
    | 93 :: rest =>
      if idPart.isEmpty then { sessionId := none, response := jsTrim text }
      else { sessionId := some idPart, response := jsTrim rest }
    | _ => { sessionId := none, response := jsTrim text }

/-! ## `src/dist/server/twilio.js` — TwiML generation and sender check -/

/-- Source `escapeXml` (twilio.js lines 154-161): the five sequential global
replaces, `&` first; equivalent to this per-unit expansion because no
replacement output contains a character replaced in a later pass. -/
def escapeXml (s : JSString) : JSString :=
  (s.map (fun u =>
    if u == 38 then jsStr "&amp;"
    else if u == 60 then jsStr "&lt;"
    else if u == 62 then jsStr "&gt;"
    else if u == 34 then jsStr "&quot;"
    else if u == 39 then jsStr "&apos;"
    else [u])).flatten

/-- Source `generateTwiML(message?)` (twilio.js lines 145-150). -/
def generateTwiML (message : Option JSString) : JSString :=
  match message with
  | some m =>
    if !m.isEmpty then
      jsStr "<?xml version=\"1.0\" encoding=\"UTF-8\"?><Response><Message>" ++
        escapeXml m ++ jsStr "</Message></Response>"
    else jsStr "<?xml version=\"1.0\" encoding=\"UTF-8\"?><Response></Response>"
  | none => jsStr "<?xml version=\"1.0\" encoding=\"UTF-8\"?><Response></Response>"

/-- Source `TwilioClient.verifyFromNumber` (twilio.js lines 136-140): strip all
non-digit characters from both numbers and compare. -/
def verifyFromNumber (userPhone : JSString) (fromNum : JSString) : Bool :=
  fromNum.filter isDigitU == userPhone.filter isDigitU

/-! ## `src/dist/server/routes.js` — HTTP handlers -/

/-- JSON values (the bodies produced by `sendJSON`). -/
inductive Json where
  | null : Json
  | str : JSString → Json
  | num : Int → Json
  | bool : Bool → Json
  | obj : List (String × Json) → Json

/-- Serialization of an `SMSResponse` object (field order of the object
literal in `src/shared/types.ts` / the spec's StoredResponse). -/
def smsResponseJson (r : SMSResponse) : Json :=
  .obj [("sessionId", .str r.sessionId), ("response", .str r.response),
        ("from", .str r.from_), ("timestamp", .num r.timestamp)]

/-- An HTTP response: status code and body. TwiML bodies are strings, JSON
bodies are `Json`. -/
structure TwiMLReply where
  status : Nat
  body : JSString
deriving DecidableEq, Repr

/-- The expression `activeIds.map(id => "CC-" + id).join(", ")`. -/
def joinIds (ids : List JSString) : JSString :=
  match ids with
  | [] => []
  | [x] => jsStr "CC-" ++ x
  | x :: xs => jsStr "CC-" ++ x ++ jsStr ", " ++ joinIds xs

/-- Source `handleTwilioWebhook` (routes.js lines 73-114, routes.ts lines 89-140):
verify the sender, parse the session id, and branch on the active-session
set. `now` is the registry's clock for `storeResponse`. -/
def handleTwilioWebhook (userPhone : JSString) (reg : SessionRegistry)
    (fromNum : JSString) (messageBody : JSString) (now : Int) :
    TwiMLReply × SessionRegistry :=
  if !verifyFromNumber userPhone fromNum then
    (⟨200, generateTwiML none⟩, reg)
  else
    let parsed := parseSessionFromSMS messageBody
    match parsed.sessionId with
    | none =>
      let activeIds := getActiveSessionIds reg
      if activeIds.length == 0 then
        (⟨200, generateTwiML (some (jsStr "No active Claude Code sessions."))⟩, reg)
      else
        let idList := joinIds activeIds
        (⟨200, generateTwiML (some (jsStr "Multiple sessions active. Reply with [CC-ID] prefix. Active: " ++ idList))⟩, reg)
    | some sessionId =>
      if !hasSession reg sessionId then
        let activeIds := getActiveSessionIds reg
        if activeIds.length == 0 then
          (⟨200, generateTwiML (some (jsStr "Session CC-" ++ sessionId ++ jsStr " expired. No active sessions."))⟩, reg)
        else
          let idList := joinIds activeIds
          (⟨200, generateTwiML (some (jsStr "❌ Session CC-" ++ sessionId ++ jsStr " expired or not found. Active: " ++ idList))⟩, reg)
      else
        (⟨200, generateTwiML (some (jsStr "✓ Response received for CC-" ++ sessionId))⟩,
         storeResponse reg sessionId parsed.response fromNum now)

/-- Source `handleGetResponse` (routes.js lines 206-215): consume the stored
response; send it directly when present, `{response: null}` otherwise. -/
def handleGetResponse (reg : SessionRegistry) (sessionId : JSString) :
    (Nat × Json) × SessionRegistry :=
  let consumed := consumeResponse reg sessionId
  match consumed.1 with
  | some r => ((200, smsResponseJson r), consumed.2)
  | none => ((200, Json.obj [("response", Json.null)]), consumed.2)

/-- Source `BridgeServer.handleIncomingMessage` (`src/unnamed/part_007` lines
129-170) — the polling-path router. Returns the new registry and the texts
sent back through the Messages channel (`sendMessage`, `sendConfirmation`
and `sendErrorResponse` all send one text). -/
def handleIncomingMessage (reg : SessionRegistry) (message : ParsedSMS)
    (now : Int) : SessionRegistry × List JSString :=
  match message.sessionId with
  | none =>
    let activeIds := getActiveSessionIds reg
    if activeIds.length == 0 then
      (reg, [jsStr "No active Claude Code sessions."])
    else if activeIds.length == 1 then
      match activeIds.head? with
      | some singleSessionId =>
        (storeResponse reg singleSessionId message.response (jsStr "messages") now,
         [jsStr "✓ Response received for CC-" ++ singleSessionId])
      | none => (reg, [])
    else
      (reg, [jsStr "Multiple sessions active. Reply with [CC-ID] prefix. Active: " ++ joinIds activeIds])
  | some sessionId =>
    if !hasSession reg sessionId then
      let activeIds := getActiveSessionIds reg
      if activeIds.length == 0 then
        (reg, [jsStr "Session CC-" ++ sessionId ++ jsStr " expired. No active sessions."])
      else
        (reg, [jsStr "❌ " ++ (jsStr "Session CC-" ++ sessionId ++ jsStr " expired or not found. Active: " ++ joinIds activeIds)])
    else
      (storeResponse reg sessionId message.response (jsStr "messages") now,
       [jsStr "✓ Response received for CC-" ++ sessionId])

/-! ## `BridgeServer.handleRequest` routing (`src/unnamed/part_007` 204-294) -/

/-- HTTP method. -/
inductive Method where
  | GET
  | POST
  | OPTIONS
deriving DecidableEq, Repr

/-- The route selected by `handleRequest`, with the captured id segment. -/
inductive Route where
  | preflight : Route
  | sendSMS : Route
  | registerSession : Route
  | getResponse : JSString → Route
  | enableSession : JSString → Route
  | disableSession : JSString → Route
  | checkSessionEnabled : JSString → Route
  | enableGlobal : Route
  | disableGlobal : Route
  | status : Route
  | root : Route
  | notFound : Route
deriving DecidableEq, Repr

/-- Match `^<pre>([a-f0-9]+)<suf>$` with the `i` flag: the literal front
part case-insensitively, then a greedy non-empty hex run, then the literal
tail part case-insensitively to the end. Deterministic because `/` is not a
hex character. -/
def matchIdRoute (pre : JSString) (suf : JSString) (path : JSString) :
    Option JSString :=
  match ciStripFront pre path with
  | none => none
  | some rest =>
    let idPart := rest.takeWhile isHexDigitU
    if !idPart.isEmpty && ciEq (rest.drop idPart.length) suf then some idPart
    else none

/-- The route dispatch of `BridgeServer.handleRequest`: OPTIONS preflight
first, then the literal paths (case-sensitive `===`), then the four
id-carrying regex routes, then 404. -/
def routeRequest (method : Method) (path : JSString) : Route :=
  if method == .OPTIONS then .preflight
  else if path == jsStr "/api/send" && method == .POST then .sendSMS
  else if path == jsStr "/api/session" && method == .POST then .registerSession
  else
    match matchIdRoute (jsStr "/api/response/") [] path, method with
    | some id, .GET => .getResponse id
    | _, _ =>
      match matchIdRoute (jsStr "/api/session/") (jsStr "/enable") path, method with
      | some id, .POST => .enableSession id
      | _, _ =>
        match matchIdRoute (jsStr "/api/session/") (jsStr "/disable") path, method with
        | some id, .POST => .disableSession id
        | _, _ =>
          match matchIdRoute (jsStr "/api/session/") (jsStr "/enabled") path, method with
          | some id, .GET => .checkSessionEnabled id
          | _, _ =>
            if path == jsStr "/api/enable" && method == .POST then .enableGlobal
            else if path == jsStr "/api/disable" && method == .POST then .disableGlobal
            else if path == jsStr "/api/status" && method == .GET then .status
            else if path == jsStr "/" && method == .GET then .root
            else .notFound

/-! ## Basic lemmas about the string and map primitives -/

/-- Dropping while a predicate holds is the identity when the head fails it. -/
theorem dropWhile_of_head_false {p : Nat → Bool} {a : Nat} {l : List Nat}
    (h : p a = false) : (a :: l).dropWhile p = a :: l := by
  simp [List.dropWhile, h]

/-- Trimming is the identity on a string whose first and last units are not
whitespace. -/
theorem jsTrim_eq_self {s : JSString}
    (h1 : ∀ u, s.head? = some u → isJsWhitespace u = false)
    (h2 : ∀ u, s.getLast? = some u → isJsWhitespace u = false) :
    jsTrim s = s := by
  unfold jsTrim
  cases s with
  | nil => rfl
  | cons a l =>
    rw [dropWhile_of_head_false (h1 a rfl)]
    have hrev : (a :: l).reverse.head? = (a :: l).getLast? := List.head?_reverse _
    cases hb : (a :: l).reverse with
    | nil => simp at hb
    | cons b t =>
      have : (a :: l).getLast? = some b := by rw [← hrev, hb]; rfl
      rw [dropWhile_of_head_false (h2 b this), ← hb, List.reverse_reverse]

/-- Taking `isHexDigitU` units of an all-hex run followed by `]` returns the run. -/
theorem takeWhile_hex_id {id r : JSString} (h : id.all isHexDigitU = true) :
    (id ++ 93 :: r).takeWhile isHexDigitU = id := by
  induction id with
  | nil => simp [List.takeWhile_cons]; decide
  | cons a t ih =>
    simp only [List.all_cons, Bool.and_eq_true] at h
    simp [List.takeWhile_cons, h.1, ih h.2]

/-- Case-insensitive unit comparison is reflexive. -/
theorem ciEqU_refl (a : Nat) : ciEqU a a = true := by
  simp [ciEqU]

/-- Stripping a string from a superstring that begins with it (same case). -/
theorem ciStripFront_self_append (l r : JSString) :
    ciStripFront l (l ++ r) = some r := by
  induction l with
  | nil => rfl
  | cons a t ih => simp [ciStripFront, ciEqU_refl, ih]

/-- Members of `takeWhile p` satisfy `p`. -/
theorem all_takeWhile (p : Nat → Bool) (l : JSString) :
    (l.takeWhile p).all p = true := by
  rw [List.all_eq_true]
  intro x hx
  exact List.mem_takeWhile_imp hx

/-! ## Claim C10 — unauthorized webhook sender -/

/-- C10: for every inbound Twilio webhook request whose `From` number does not
equal the configured user phone after stripping all non-digit characters from
both, the handler responds 200 with an empty TwiML envelope and no registry
state is mutated. -/
theorem webhook_unauthorized_sender (userPhone : JSString)
    (reg : SessionRegistry) (fromNum messageBody : JSString) (now : Int)
    (h : fromNum.filter isDigitU ≠ userPhone.filter isDigitU) :
    handleTwilioWebhook userPhone reg fromNum messageBody now =
      (⟨200, jsStr "<?xml version=\"1.0\" encoding=\"UTF-8\"?><Response></Response>"⟩,
       reg) := by
  have hv : verifyFromNumber userPhone fromNum = false := by
    simpa [verifyFromNumber] using h
  simp [handleTwilioWebhook, hv, generateTwiML]

/-- Witness for C10 at a concrete mismatched sender. -/
theorem webhook_unauthorized_sender_witness :
    handleTwilioWebhook (jsStr "+15551234567") ⟨[], []⟩ (jsStr "+15550000000")
        (jsStr "hi") 0 =
      (⟨200, jsStr "<?xml version=\"1.0\" encoding=\"UTF-8\"?><Response></Response>"⟩,
       ⟨[], []⟩) :=
  webhook_unauthorized_sender (jsStr "+15551234567") ⟨[], []⟩
    (jsStr "+15550000000") (jsStr "hi") 0 (by decide)

/-! ## Claim C6 — consumeResponse is an atomic read-and-clear -/

/-- C6: `consumeResponse` atomically reads and clears the stored response: if
a response is stored for the id, the call returns it and a second call made
immediately after returns none; if no response is stored, the call returns
none and the registry is unchanged. (Registry modelled from the spec:
`sessions.ts` is absent from the snapshot.) -/
theorem consumeResponse_read_and_clear (reg : SessionRegistry) (id : JSString) :
    (∀ r, regLookup reg.responses id = some r → (consumeResponse reg id).1 = some r)
    ∧ ((consumeResponse reg id).1.isSome →
        (consumeResponse (consumeResponse reg id).2 id).1 = none)
    ∧ ((consumeResponse reg id).1 = none → (consumeResponse reg id).2 = reg) := by
  refine ⟨fun r hr => hr, ?_, ?_⟩
  · intro _
    show regLookup ((reg.responses.filter _)) id = none
    unfold regLookup
    rw [List.find?_eq_none.mpr, Option.map_none']
    intro p hp
    have := (List.mem_filter.mp hp).2
    simpa using this
  · intro hnone
    have hfind : reg.responses.find? (fun p => p.1 == id) = none := by
      unfold consumeResponse regLookup at hnone
      exact Option.map_eq_none'.mp hnone
    have hall := List.find?_eq_none.mp hfind
    have hf : reg.responses.filter (fun p => !(p.1 == id)) = reg.responses :=
      List.filter_eq_self.mpr (fun a ha => by simpa using hall a ha)
    show ({ reg with responses := reg.responses.filter (fun p => !(p.1 == id)) } :
        SessionRegistry) = reg
    rw [hf]

/-- Witness for C6 at a concrete registry holding one stored response. -/
theorem consumeResponse_read_and_clear_witness :
    (consumeResponse ⟨[], [(jsStr "ab", ⟨jsStr "ab", jsStr "Yes", jsStr "+1555", 5⟩)]⟩
        (jsStr "ab")).1 = some ⟨jsStr "ab", jsStr "Yes", jsStr "+1555", 5⟩ ∧
    (consumeResponse
        (consumeResponse ⟨[], [(jsStr "ab", ⟨jsStr "ab", jsStr "Yes", jsStr "+1555", 5⟩)]⟩
          (jsStr "ab")).2 (jsStr "ab")).1 = none ∧
    (consumeResponse (⟨[], []⟩ : SessionRegistry) (jsStr "ab")).2 = ⟨[], []⟩ := by
  refine ⟨?_, ?_, ?_⟩
  · exact (consumeResponse_read_and_clear
      ⟨[], [(jsStr "ab", ⟨jsStr "ab", jsStr "Yes", jsStr "+1555", 5⟩)]⟩ (jsStr "ab")).1
      _ (by decide)
  · exact (consumeResponse_read_and_clear
      ⟨[], [(jsStr "ab", ⟨jsStr "ab", jsStr "Yes", jsStr "+1555", 5⟩)]⟩ (jsStr "ab")).2.1
      (by decide)
  · exact (consumeResponse_read_and_clear ⟨[], []⟩ (jsStr "ab")).2.2 (by decide)

/-! ## Claim C7 — GET /api/response/:sessionId body shape -/

/-- The success shape claimed by the spec for GET `/api/response/:sessionId`:
a JSON object whose single key is `response`. -/
def isResponseWrapped : Json → Bool
  | .obj [(k, _)] => k == "response"
  | _ => false

/-- A registry holding one stored response, for the C7 counterexample. -/
def regStored : SessionRegistry :=
  ⟨[], [(jsStr "ab", ⟨jsStr "ab", jsStr "Yes", jsStr "+1555", 5⟩)]⟩

/-- C7 counterexample: with a response stored for session `ab`, the handler
replies 200, but the body is the bare StoredResponse object (top-level keys
`sessionId`, `response`, `from`, `timestamp`), not the claimed
`{response: StoredResponse}` wrapper. -/
theorem getResponse_shape_counterexample :
    (consumeResponse regStored (jsStr "ab")).1.isSome = true ∧
    (handleGetResponse regStored (jsStr "ab")).1.1 = 200 ∧
    (handleGetResponse regStored (jsStr "ab")).1.2 =
      Json.obj [("sessionId", .str (jsStr "ab")), ("response", .str (jsStr "Yes")),
                ("from", .str (jsStr "+1555")), ("timestamp", .num 5)] ∧
    isResponseWrapped (handleGetResponse regStored (jsStr "ab")).1.2 = false := by
  refine ⟨by decide, rfl, rfl, rfl⟩

/-- C7 as amended: the route always replies 200; when a response is stored it
is sent as the bare StoredResponse object and the slot is cleared; only when
none is stored is the body the `{response: null}` wrapper. (Registry modelled
from the spec: `sessions.ts` is absent from the snapshot.) -/
theorem getResponse_amended (reg : SessionRegistry) (id : JSString) :
    (handleGetResponse reg id).1.1 = 200 ∧
    (∀ r, (consumeResponse reg id).1 = some r →
        (handleGetResponse reg id).1.2 = smsResponseJson r) ∧
    ((consumeResponse reg id).1 = none →
        (handleGetResponse reg id).1.2 = Json.obj [("response", Json.null)]) ∧
    (handleGetResponse reg id).2 = (consumeResponse reg id).2 := by
  unfold handleGetResponse
  cases h : (consumeResponse reg id).1 with
  | none => exact ⟨by simp [h], fun r hr => by simp [h] at hr, fun _ => by simp [h], by simp [h]⟩
  | some r =>
    exact ⟨by simp [h], fun r' hr' => by simp [h] at hr' ⊢; exact hr' ▸ rfl,
      fun hn => by simp [h] at hn, by simp [h]⟩

/-- Witness for C7 (amended) at a stored and an absent response. -/
theorem getResponse_amended_witness :
    (handleGetResponse regStored (jsStr "ab")).1.2 =
      smsResponseJson ⟨jsStr "ab", jsStr "Yes", jsStr "+1555", 5⟩ ∧
    (handleGetResponse (⟨[], []⟩ : SessionRegistry) (jsStr "ab")).1.2 =
      Json.obj [("response", Json.null)] := by
  constructor
  · exact (getResponse_amended regStored (jsStr "ab")).2.1 _ (by decide)
  · exact (getResponse_amended ⟨[], []⟩ (jsStr "ab")).2.2.1 (by decide)

/-! ## Claim C1 — three-way disambiguation on every inbound handler -/

/-- A registry holding exactly one active session `abc123`. -/
def regOne : SessionRegistry :=
  ⟨[(jsStr "abc123", ⟨jsStr "abc123", 0, 0, true, none⟩)], []⟩

/-- The configured user phone for the C1 evaluation. -/
def phoneC1 : JSString := jsStr "+15551234567"

set_option maxRecDepth 100000

/-- C1 evaluation at the failing input: with exactly one active session and
the unprefixed inbound reply `Yes`, the polling path
(`BridgeServer.handleIncomingMessage`) auto-routes — it stores the response
and sends a confirmation — but the webhook path (`handleTwilioWebhook`)
diverges: it replies "Multiple sessions active. Reply with [CC-ID] prefix."
and stores nothing, although its own README documents that a simple
unprefixed reply works when a single session is active. -/
theorem webhook_single_session_divergence :
    (handleIncomingMessage regOne ⟨none, jsStr "Yes"⟩ 5).1.responses =
      [(jsStr "abc123", ⟨jsStr "abc123", jsStr "Yes", jsStr "messages", 5⟩)] ∧
    (handleIncomingMessage regOne ⟨none, jsStr "Yes"⟩ 5).2 =
      [jsStr "✓ Response received for CC-abc123"] ∧
    (handleTwilioWebhook phoneC1 regOne phoneC1 (jsStr "Yes") 5).1 =
      ⟨200, generateTwiML (some (jsStr
        "Multiple sessions active. Reply with [CC-ID] prefix. Active: CC-abc123"))⟩ ∧
    (handleTwilioWebhook phoneC1 regOne phoneC1 (jsStr "Yes") 5).2 = regOne := by
  refine ⟨by decide, by decide, by decide, by decide⟩

/-! ## Claim C3 — webhook signature verifier error contract -/

/-- C3: the verifier throws exactly for a missing signature header, a missing
timestamp header, a timestamp that fails to parse as a number, or a malformed
public key (the last reached once the checks before it pass); it returns
`false` without throwing for a stale or too-far-future timestamp and for a
malformed signature encoding. -/
theorem signature_verifier_error_contract (cp : CryptoPrims) (now : Int)
    (body sig ts pk : JSString) :
    (sig = [] → verifyTelnyxSignature cp now body sig ts pk =
      .error "Webhook signature header is required") ∧
    (sig ≠ [] → ts = [] → verifyTelnyxSignature cp now body sig ts pk =
      .error "Webhook timestamp header is required") ∧
    (sig ≠ [] → ts ≠ [] → jsParseInt ts = none →
      verifyTelnyxSignature cp now body sig ts pk =
        .error "Webhook timestamp is invalid: not a number") ∧
    (∀ t, sig ≠ [] → ts ≠ [] → jsParseInt ts = some t →
      (MAX_TIMESTAMP_AGE_SECONDS < now - t ∨
        now - t < -MAX_TIMESTAMP_FUTURE_SECONDS) →
      verifyTelnyxSignature cp now body sig ts pk = .ok false) ∧
    (∀ t, sig ≠ [] → ts ≠ [] → jsParseInt ts = some t →
      now - t ≤ MAX_TIMESTAMP_AGE_SECONDS →
      -MAX_TIMESTAMP_FUTURE_SECONDS ≤ now - t →
      cp.decodeBase64 sig = none →
      verifyTelnyxSignature cp now body sig ts pk = .ok false) ∧
    (∀ t s, sig ≠ [] → ts ≠ [] → jsParseInt ts = some t →
      now - t ≤ MAX_TIMESTAMP_AGE_SECONDS →
      -MAX_TIMESTAMP_FUTURE_SECONDS ≤ now - t →
      cp.decodeBase64 sig = some s → cp.createPublicKey pk = none →
      verifyTelnyxSignature cp now body sig ts pk =
        .error "Invalid public key format") ∧
    (∀ e, verifyTelnyxSignature cp now body sig ts pk = .error e →
      sig = [] ∨ ts = [] ∨ jsParseInt ts = none ∨ cp.createPublicKey pk = none) := by
  refine ⟨?_, ?_, ?_, ?_, ?_, ?_, ?_⟩
  · intro h; simp [verifyTelnyxSignature, h]
  · intro h1 h2
    have hA : ¬ (sig.isEmpty = true) := by simp [h1]
    simp only [verifyTelnyxSignature, if_neg hA, h2]
    simp
  · intro h1 h2 h3
    have hA : ¬ (sig.isEmpty = true) := by simp [h1]
    have hB : ¬ (ts.isEmpty = true) := by simp [h2]
    simp only [verifyTelnyxSignature, if_neg hA, if_neg hB, h3]
  · intro t h1 h2 h3 h4
    have hA : ¬ (sig.isEmpty = true) := by simp [h1]
    have hB : ¬ (ts.isEmpty = true) := by simp [h2]
    simp only [verifyTelnyxSignature, if_neg hA, if_neg hB, h3]
    simp only [MAX_TIMESTAMP_AGE_SECONDS, MAX_TIMESTAMP_FUTURE_SECONDS] at h4 ⊢
    rcases h4 with h4 | h4
    · rw [if_pos (by omega)]
    · rw [if_neg (by omega), if_pos (by omega)]
  · intro t h1 h2 h3 h4 h5 h6
    have hA : ¬ (sig.isEmpty = true) := by simp [h1]
    have hB : ¬ (ts.isEmpty = true) := by simp [h2]
    simp only [verifyTelnyxSignature, if_neg hA, if_neg hB, h3, h6]
    simp only [MAX_TIMESTAMP_AGE_SECONDS, MAX_TIMESTAMP_FUTURE_SECONDS] at h4 h5 ⊢
    rw [if_neg (by omega), if_neg (by omega)]
  · intro t s h1 h2 h3 h4 h5 h6 h7
    have hA : ¬ (sig.isEmpty = true) := by simp [h1]
    have hB : ¬ (ts.isEmpty = true) := by simp [h2]
    simp only [verifyTelnyxSignature, if_neg hA, if_neg hB, h3, h6, h7]
    simp only [MAX_TIMESTAMP_AGE_SECONDS, MAX_TIMESTAMP_FUTURE_SECONDS] at h4 h5 ⊢
    rw [if_neg (by omega), if_neg (by omega)]
  · intro e he
    by_contra hc
    push_neg at hc
    obtain ⟨hs, ht, hp, hk⟩ := hc
    obtain ⟨t, hpt⟩ := Option.ne_none_iff_exists'.mp hp
    obtain ⟨k, hkk⟩ := Option.ne_none_iff_exists'.mp hk
    have hA : ¬ (sig.isEmpty = true) := by simp [hs]
    have hB : ¬ (ts.isEmpty = true) := by simp [ht]
    simp only [verifyTelnyxSignature, if_neg hA, if_neg hB, hpt, hkk] at he
    split_ifs at he
    try simp at he
    rcases hd : cp.decodeBase64 sig with _ | s <;> (rw [hd] at he; simp at he)

/-- Witness for C3: a fresh timestamp with failing base64 decode yields
`.ok false`; a six-minutes-old timestamp yields `.ok false`; an empty
signature header yields the configuration error. -/
theorem signature_verifier_error_contract_witness :
    verifyTelnyxSignature ⟨fun _ => none, fun _ => none, fun _ _ _ => false⟩
        1000 (jsStr "b") (jsStr "AA==") (jsStr "999") (jsStr "k") = .ok false ∧
    verifyTelnyxSignature ⟨fun _ => none, fun _ => none, fun _ _ _ => false⟩
        1000 (jsStr "b") (jsStr "AA==") (jsStr "640") (jsStr "k") = .ok false ∧
    verifyTelnyxSignature ⟨fun _ => none, fun _ => none, fun _ _ _ => false⟩
        1000 (jsStr "b") [] (jsStr "999") (jsStr "k") =
      .error "Webhook signature header is required" := by
  refine ⟨?_, ?_, ?_⟩
  · exact (signature_verifier_error_contract _ 1000 (jsStr "b") (jsStr "AA==")
      (jsStr "999") (jsStr "k")).2.2.2.2.1 999 (by decide) (by decide) (by decide)
      (by decide) (by decide) rfl
  · exact (signature_verifier_error_contract _ 1000 (jsStr "b") (jsStr "AA==")
      (jsStr "640") (jsStr "k")).2.2.2.1 640 (by decide) (by decide) (by decide)
      (Or.inl (by decide))
  · exact (signature_verifier_error_contract _ 1000 (jsStr "b") []
      (jsStr "999") (jsStr "k")).1 rfl

/-! ## Claim C5 — strictly ascending delivery within a poll stream -/

/-- One poll batch: the watermark never decreases, every delivered item lies
strictly above the initial watermark and at or below the final one, the
delivered ids are pairwise strictly increasing in delivery order, and the
fingerprint map is untouched. -/
theorem checkForNewMessages_spec (msgs : List ImsgMessage) (st : MessagesState) :
    st.lastMessageId ≤ (checkForNewMessages st msgs).1.lastMessageId ∧
    (∀ m ∈ (checkForNewMessages st msgs).2,
        st.lastMessageId < m.id ∧ m.id ≤ (checkForNewMessages st msgs).1.lastMessageId) ∧
    (checkForNewMessages st msgs).2.Pairwise (fun a b => a.id < b.id) ∧
    (checkForNewMessages st msgs).1.sentMessageHashes = st.sentMessageHashes := by
  induction msgs generalizing st with
  | nil => exact ⟨le_refl _, by simp [checkForNewMessages], by simp [checkForNewMessages], rfl⟩
  | cons m rest ih =>
    by_cases hfm : m.is_from_me
    · simpa [checkForNewMessages, hfm] using ih st
    · by_cases hecho : wasSentByUs st m.text
      · simpa [checkForNewMessages, hfm, hecho] using ih st
      · by_cases hwm : m.id ≤ st.lastMessageId
        · simpa [checkForNewMessages, hfm, hecho, hwm] using ih st
        · have hlt : st.lastMessageId < m.id := lt_of_not_ge hwm
          obtain ⟨ih1, ih2, ih3, ih4⟩ := ih { st with lastMessageId := m.id }
          have hred :
              checkForNewMessages st (m :: rest) =
                ((checkForNewMessages { st with lastMessageId := m.id } rest).1,
                 m :: (checkForNewMessages { st with lastMessageId := m.id } rest).2) := by
            simp [checkForNewMessages, hfm, hecho, hwm]
          rw [hred]
          refine ⟨le_trans (le_of_lt hlt) ih1, ?_, ?_, ih4⟩
          · intro x hx
            rcases List.mem_cons.mp hx with hx | hx
            · subst hx; exact ⟨hlt, ih1⟩
            · exact ⟨lt_trans hlt (ih2 x hx).1, (ih2 x hx).2⟩
          · exact List.pairwise_cons.mpr ⟨fun x hx => (ih2 x hx).1, ih3⟩

/-- C5: across any number of poll cycles, every delivered item's provider
sequence id is strictly greater than that of every previously delivered item
(delivery order is ascending in id), every delivered id lies strictly above
the initial watermark, and the watermark never decreases. -/
theorem poll_delivery_strictly_ascending (st : MessagesState)
    (batches : List (List ImsgMessage)) :
    (processPolls st batches).2.Pairwise (fun a b => a.id < b.id) ∧
    st.lastMessageId ≤ (processPolls st batches).1.lastMessageId ∧
    (∀ m ∈ (processPolls st batches).2,
        st.lastMessageId < m.id ∧
        m.id ≤ (processPolls st batches).1.lastMessageId) := by
  induction batches generalizing st with
  | nil => exact ⟨by simp [processPolls], le_refl _, by simp [processPolls]⟩
  | cons batch more ih =>
    obtain ⟨c1, c2, c3, _⟩ := checkForNewMessages_spec batch st
    obtain ⟨ih1, ih2, ih3⟩ := ih (checkForNewMessages st batch).1
    have hred :
        processPolls st (batch :: more) =
          ((processPolls (checkForNewMessages st batch).1 more).1,
           (checkForNewMessages st batch).2 ++
             (processPolls (checkForNewMessages st batch).1 more).2) := by
      simp [processPolls]
    rw [hred]
    refine ⟨?_, le_trans c1 ih2, ?_⟩
    · refine List.pairwise_append.mpr ⟨c3, ih1, ?_⟩
      intro a ha b hb
      exact lt_of_le_of_lt (c2 a ha).2 (ih3 b hb).1
    · intro x hx
      rcases List.mem_append.mp hx with hx | hx
      · exact ⟨(c2 x hx).1, le_trans (c2 x hx).2 ih2⟩
      · exact ⟨lt_of_le_of_lt c1 (ih3 x hx).1, (ih3 x hx).2⟩

/-! ## Claim C4 — echo filter TTL behaviour -/

/-- The upserted entry is a member of the updated map. -/
theorem mem_mapSetInt (m : List (Int × Int)) (k v : Int) :
    (k, v) ∈ mapSetInt m k v := by
  unfold mapSetInt
  split
  · rename_i h
    obtain ⟨p, hp, hpk⟩ := List.any_eq_true.mp h
    refine List.mem_map.mpr ⟨p, hp, ?_⟩
    simp only [hpk, if_true]
  · exact List.mem_append_right _ (by simp)

/-- The state of the Messages client after sending `Done!` at time 0, with no
further sends: the fingerprint is recorded at timestamp 0. -/
def stEcho : MessagesState := trackSentMessage ⟨[], 0⟩ 0 (jsStr "Done!")

/-- C4 counterexample: the echo of `Done!` observed at time 70000 — after the
60-second fingerprint TTL has elapsed — is still suppressed, because
`wasSentByUs` only tests fingerprint presence and pruning happens lazily on
sends (of which there were none); nothing in the poll path reads the clock,
so the suppression at time 70000 is exactly this computation. The claim says
the item would be delivered to the callback. -/
theorem echo_after_ttl_counterexample :
    (0 : Int) + SENT_MESSAGE_TTL_MS < 70000 ∧
    wasSentByUs stEcho (jsStr "Done!") = true ∧
    (checkForNewMessages stEcho [⟨1, false, jsStr "me", jsStr "Done!"⟩]).2 = [] := by
  refine ⟨by decide, by decide, by decide⟩

/-- C4 as amended: (i) once a sent text's fingerprint is tracked, the text is
regarded as sent-by-us; (ii) a poll batch consisting of such echoes invokes
the callback for none of them — regardless of how much time has passed, since
expiry is only applied by the lazy prune on a later send; (iii) after the TTL
has elapsed *and* a subsequent send has pruned the expired fingerprint, the
same text is delivered. -/
theorem echo_filter_amended :
    (∀ st now T, wasSentByUs (trackSentMessage st now T) T = true) ∧
    (∀ st msgs, (∀ m ∈ msgs, wasSentByUs st m.text = true) →
        (checkForNewMessages st msgs).2 = []) ∧
    (∀ (w t0 t1 : Int) (T U : JSString) (i : Int) (s : JSString),
        hashMessage T ≠ hashMessage U → t0 < t1 - SENT_MESSAGE_TTL_MS → w < i →
        (checkForNewMessages
            (trackSentMessage (trackSentMessage ⟨[], w⟩ t0 T) t1 U)
            [⟨i, false, s, T⟩]).2 = [⟨i, false, s, T⟩]) := by
  refine ⟨?_, ?_, ?_⟩
  · intro st now T
    unfold wasSentByUs trackSentMessage
    rw [List.any_eq_true]
    refine ⟨(hashMessage T, now), List.mem_filter.mpr ⟨mem_mapSetInt _ _ _, ?_⟩, by simp⟩
    simp only [SENT_MESSAGE_TTL_MS, Bool.not_eq_true', decide_eq_false_iff_not]
    omega
  · intro st msgs h
    induction msgs with
    | nil => rfl
    | cons m rest ih =>
      have hm := h m (List.mem_cons_self m rest)
      by_cases hfm : m.is_from_me
      · simpa [checkForNewMessages, hfm] using ih (fun x hx => h x (List.mem_cons_of_mem m hx))
      · simpa [checkForNewMessages, hfm, hm] using
          ih (fun x hx => h x (List.mem_cons_of_mem m hx))
  · intro w t0 t1 T U i s hne ht hi
    have hTU : (hashMessage T == hashMessage U) = false := beq_eq_false_iff_ne.mpr hne
    have hUT : (hashMessage U == hashMessage T) = false :=
      beq_eq_false_iff_ne.mpr (Ne.symm hne)
    have ht' : t0 < t1 - 60000 := by simpa [SENT_MESSAGE_TTL_MS] using ht
    have e1 : trackSentMessage ⟨[], w⟩ t0 T =
        ⟨[(hashMessage T, t0)], w⟩ := by
      unfold trackSentMessage mapSetInt
      simp only [SENT_MESSAGE_TTL_MS, List.any_nil, Bool.false_eq_true, if_false,
        List.nil_append, List.filter_cons, List.filter_nil, Bool.not_eq_true',
        decide_eq_false_iff_not]
      rw [if_pos (by omega)]
    have e2 : trackSentMessage ⟨[(hashMessage T, t0)], w⟩ t1 U =
        ⟨[(hashMessage U, t1)], w⟩ := by
      unfold trackSentMessage mapSetInt
      simp only [SENT_MESSAGE_TTL_MS, List.any_cons, List.any_nil, hTU,
        Bool.or_false, Bool.false_eq_true, if_false, List.cons_append,
        List.nil_append, List.filter_cons, List.filter_nil, Bool.not_eq_true',
        decide_eq_false_iff_not]
      rw [if_neg (by omega), if_pos (by omega)]
    rw [e1, e2]
    have hecho : wasSentByUs ⟨[(hashMessage U, t1)], w⟩ T = false := by
      simp [wasSentByUs, hUT]
    simp [checkForNewMessages, hecho, not_le.mpr hi]

/-- Witness for C4 (amended) at concrete texts and times: `Done!` tracked at
time 0, a second send (`x`) at time 70000 prunes the expired fingerprint, and
the echo of `Done!` is then delivered. -/
theorem echo_filter_amended_witness :
    (checkForNewMessages stEcho [⟨1, false, jsStr "me", jsStr "Done!"⟩]).2 = [] ∧
    (checkForNewMessages
        (trackSentMessage (trackSentMessage ⟨[], 0⟩ 0 (jsStr "Done!")) 70000 (jsStr "x"))
        [⟨1, false, jsStr "me", jsStr "Done!"⟩]).2 =
      [⟨1, false, jsStr "me", jsStr "Done!"⟩] := by
  constructor
  · exact echo_filter_amended.2.1 stEcho _ (by intro m hm; simp at hm; rw [hm]; decide)
  · exact echo_filter_amended.2.2 0 0 70000 (jsStr "Done!") (jsStr "x") 1 (jsStr "me")
      (by decide) (by decide) (by decide)

/-! ## Claim C9 — only hexadecimal session ids are recognized -/

/-- Dropping past the `takeWhile` run is `dropWhile`. -/
theorem drop_takeWhile_length (p : Nat → Bool) (l : List Nat) :
    l.drop (l.takeWhile p).length = l.dropWhile p := by
  induction l with
  | nil => rfl
  | cons a t ih =>
    by_cases h : p a
    · simp [List.takeWhile_cons, List.dropWhile_cons, h, ih]
    · simp [List.takeWhile_cons, List.dropWhile_cons, h]

/-- An id captured by one of the `/api/.../:id/...` route regexes is a
non-empty hex run. -/
theorem matchIdRoute_hex {pre suf path id : JSString}
    (h : matchIdRoute pre suf path = some id) :
    id ≠ [] ∧ id.all isHexDigitU = true := by
  unfold matchIdRoute at h
  cases hs : ciStripFront pre path with
  | none => rw [hs] at h; exact absurd h (by simp)
  | some rest =>
    rw [hs] at h
    have h' : (if (!(rest.takeWhile isHexDigitU).isEmpty &&
        ciEq (rest.drop (rest.takeWhile isHexDigitU).length) suf) = true then
          some (rest.takeWhile isHexDigitU) else none) = some id := h
    by_cases hcond : (!(rest.takeWhile isHexDigitU).isEmpty &&
        ciEq (rest.drop (rest.takeWhile isHexDigitU).length) suf) = true
    · rw [if_pos hcond] at h'
      injection h' with h'
      subst h'
      rw [Bool.and_eq_true] at hcond
      exact ⟨by simpa [List.isEmpty_iff] using hcond.1, all_takeWhile _ _⟩
    · rw [if_neg hcond] at h'
      exact absurd h' (by simp)

/-- Stripping a concatenation is sequential stripping. -/
theorem ciStripFront_append (p q s : JSString) :
    ciStripFront (p ++ q) s = (ciStripFront p s).bind (ciStripFront q) := by
  induction p generalizing s with
  | nil => simp [ciStripFront]
  | cons a t ih =>
    cases s with
    | nil => simp [ciStripFront]
    | cons b bs =>
      simp only [List.cons_append, ciStripFront]
      by_cases hab : ciEqU a b = true
      · rw [if_pos hab, if_pos hab]
        exact ih bs
      · rw [if_neg hab, if_neg hab]; rfl

/-- Case-insensitive unit comparison is symmetric. -/
theorem ciEqU_comm (a b : Nat) : ciEqU a b = ciEqU b a := by
  simp [ciEqU, Bool.beq_comm]

/-- Stripping a known prefix of a concatenation. -/
theorem ciStrip_mid (tw tail r : JSString) (hr : tw ++ tail = r) :
    ciStripFront tw r = some tail := hr ▸ ciStripFront_self_append tw tail

/-- An id captured by `parseMessage` is a non-empty hex run and the text
begins (case-insensitively) with `[CC-<id>]`. -/
theorem ccMatch_inv {text id rest : JSString}
    (h : ccMatch text = some (id, rest)) :
    id ≠ [] ∧ id.all isHexDigitU = true ∧
    (ciStripFront (jsStr "[CC-" ++ id ++ jsStr "]") text).isSome = true := by
  cases text with
  | nil => simp [ccMatch] at h
  | cons a t1 =>
  cases t1 with
  | nil => simp [ccMatch] at h
  | cons b t2 =>
  cases t2 with
  | nil => simp [ccMatch] at h
  | cons c t3 =>
  cases t3 with
  | nil => simp [ccMatch] at h
  | cons d r =>
    have h' : (if (ciEqU a 91 && ciEqU b 67 && ciEqU c 67 && ciEqU d 45) = true then
        (match r.drop (r.takeWhile isHexDigitU).length with
         | x :: rest3 =>
             if (x == 93 && !(r.takeWhile isHexDigitU).isEmpty) = true then
               some (r.takeWhile isHexDigitU, rest3.dropWhile isJsWhitespace)
             else none
         | [] => none)
      else none) = some (id, rest) := h
    by_cases hcd : (ciEqU a 91 && ciEqU b 67 && ciEqU c 67 && ciEqU d 45) = true
    case neg => rw [if_neg hcd] at h'; exact absurd h' (by simp)
    rw [if_pos hcd] at h'
    cases hdrop : r.drop (r.takeWhile isHexDigitU).length with
    | nil => rw [hdrop] at h'; exact absurd h' (by simp)
    | cons x rs =>
      rw [hdrop] at h'
      replace h' : (if (x == 93 && !(r.takeWhile isHexDigitU).isEmpty) = true then
          some (r.takeWhile isHexDigitU, rs.dropWhile isJsWhitespace)
        else none) = some (id, rest) := h'
      by_cases hx : (x == 93 && !(r.takeWhile isHexDigitU).isEmpty) = true
      case neg => rw [if_neg hx] at h'; exact absurd h' (by simp)
      rw [if_pos hx] at h'
      injection h' with hpair
      injection hpair with h1 h2
      rw [Bool.and_eq_true] at hx
      have hxv : x = 93 := by simpa using hx.1
      subst hxv
      rw [← h1]
      refine ⟨by simpa [List.isEmpty_iff] using hx.2, all_takeWhile _ _, ?_⟩
      have hr : r.takeWhile isHexDigitU ++ (93 :: rs) = r := by
        rw [← hdrop, drop_takeWhile_length]
        exact List.takeWhile_append_dropWhile _ _
      rw [Bool.and_eq_true, Bool.and_eq_true, Bool.and_eq_true] at hcd
      obtain ⟨⟨⟨ha91, hb67⟩, hc67⟩, hd45⟩ := hcd
      have step1 : ciStripFront (jsStr "[CC-") (a :: b :: c :: d :: r) = some r := by
        show ciStripFront [91, 67, 67, 45] (a :: b :: c :: d :: r) = some r
        simp [ciStripFront, ciEqU_comm 91 a, ciEqU_comm 67 b, ciEqU_comm 67 c,
          ciEqU_comm 45 d, ha91, hb67, hc67, hd45]
      rw [ciStripFront_append, ciStripFront_append, step1]
      simp only [Option.some_bind]
      rw [ciStrip_mid (r.takeWhile isHexDigitU) (93 :: rs) r hr]
      simp [ciStripFront, ciEqU_refl]

/-- C9: the public interface only recognizes hexadecimal session ids — the
reply parser returns a non-null sessionId only when the text begins with a
`[CC-<id>]` prefix whose id is a non-empty case-insensitive hex run, and the
four id-carrying HTTP routes match only when the id segment is a non-empty
hex run (anything else falls through to 404). -/
theorem hex_session_id_only :
    (∀ (method : Method) (path id : JSString),
        (routeRequest method path = .getResponse id ∨
         routeRequest method path = .enableSession id ∨
         routeRequest method path = .disableSession id ∨
         routeRequest method path = .checkSessionEnabled id) →
        id ≠ [] ∧ id.all isHexDigitU = true) ∧
    (∀ (text id : JSString), (parseMessage text).sessionId = some id →
        id ≠ [] ∧ id.all isHexDigitU = true ∧
        (ciStripFront (jsStr "[CC-" ++ id ++ jsStr "]") text).isSome = true) := by
  constructor
  · intro method path id h
    unfold routeRequest at h
    repeat' split at h
    all_goals
      rcases h with h | h | h | h <;>
        first
          | (injection h; done)
          | (injection h with he; subst he; exact matchIdRoute_hex (by assumption))
  · intro text id h
    unfold parseMessage at h
    cases hc : ccMatch text with
    | none => rw [hc] at h; exact absurd h (by simp)
    | some pr =>
      obtain ⟨idm, rest⟩ := pr
      rw [hc] at h
      replace h : some idm = some id := h
      injection h with h
      subst h
      exact ccMatch_inv hc

/-- Witness for C9: a prefixed reply with a mixed-case hex id parses to that
id, whose characters are all hex and which prefixes the text. -/
theorem hex_session_id_only_witness :
    (parseMessage (jsStr "[CC-aB3] ok")).sessionId = some (jsStr "aB3") ∧
    jsStr "aB3" ≠ [] ∧ (jsStr "aB3").all isHexDigitU = true ∧
    (ciStripFront (jsStr "[CC-" ++ jsStr "aB3" ++ jsStr "]") (jsStr "[CC-aB3] ok")).isSome
      = true := by
  refine ⟨by decide, hex_session_id_only.2 (jsStr "[CC-aB3] ok") (jsStr "aB3") (by decide)⟩

/-! ## Claim C8 — formatted messages stay within the length limit -/

/-- C8 counterexample: with a 1448-character session id, the prefix, emoji,
header and footer alone exceed the limit; the truncation branch reduces the
body to `...` but still emits 1501 characters, over the 1500-character limit. -/
theorem formatMessage_length_counterexample :
    1500 < jsLength (formatMessage (List.replicate 1448 97) .Notification
      (jsStr "hello")) := by
  have e1 : (jsStr "[CC-").length = 4 := rfl
  have e2 : (jsStr "] ").length = 2 := rfl
  have e3 : (jsStr " ").length = 1 := rfl
  have e4 : (jsStr "\n\n").length = 2 := rfl
  have e5 : (jsStr "\n\nReply with your response").length = 26 := rfl
  have e6 : (jsStr "...").length = 3 := rfl
  have e7 : (jsStr "hello").length = 5 := rfl
  have e8 : (getEventEmoji .Notification).length = 2 := rfl
  have e9 : (getEventHeader .Notification).length = 13 := rfl
  unfold formatMessage
  simp only []
  split
  · simp only [jsLength, MAX_MESSAGE_LENGTH, jsTakeInt, List.length_append,
      List.length_take, List.length_replicate, e1, e2, e3, e4, e5, e6, e7, e8, e9]
    omega
  · rename_i hle
    exfalso
    simp only [jsLength, MAX_MESSAGE_LENGTH, List.length_append,
      List.length_replicate, e1, e2, e3, e4, e5, e6, e7, e8, e9] at hle
    omega

/-- C8 as amended: the formatted message stays within the 1500-character
limit provided the reserved overhead — prefix, emoji, header, separators and
footer plus the `...` — itself fits, i.e. when
`jsLength id + emoji + header + 38 ≤ 1500`; ids long enough to break that
bound produce an over-limit message whose body is only `...`. -/
theorem formatMessage_length_amended (id : JSString) (event : HookEvent)
    (message : JSString)
    (h : jsLength id + jsLength (getEventEmoji event) +
      jsLength (getEventHeader event) + 38 ≤ 1500) :
    jsLength (formatMessage id event message) ≤ 1500 := by
  have e1 : (jsStr "[CC-").length = 4 := rfl
  have e2 : (jsStr "] ").length = 2 := rfl
  have e3 : (jsStr " ").length = 1 := rfl
  have e4 : (jsStr "\n\n").length = 2 := rfl
  have e5 : (jsStr "\n\nReply with your response").length = 26 := rfl
  have e6 : (jsStr "...").length = 3 := rfl
  simp only [jsLength] at h
  unfold formatMessage
  simp only []
  split
  · rename_i hgt
    simp only [jsLength, MAX_MESSAGE_LENGTH, jsTakeInt, List.length_append,
      List.length_take, e1, e2, e3, e4, e5, e6] at hgt ⊢
    omega
  · rename_i hle
    simp only [jsLength, MAX_MESSAGE_LENGTH, List.length_append,
      e1, e2, e3, e4, e5, e6] at hle ⊢
    omega

/-- Witness for C8 (amended): a short id with a very long body still formats
to at most 1500 characters. -/
theorem formatMessage_length_amended_witness :
    jsLength (formatMessage (jsStr "ab") .Stop (List.replicate 2000 98)) ≤ 1500 :=
  formatMessage_length_amended (jsStr "ab") .Stop (List.replicate 2000 98) (by decide)

/-! ## Claim C2 — round-trip of formatMessage through parseMessage -/

/-- C2 counterexample: for id `abc123`, event `Notification` and text `yes`
(which contains no `[CC-` and formats well under the limit), the parser
recovers the session id but returns the whole formatted remainder — emoji,
header, body and footer — as the response, not the bare text `yes`. -/
theorem roundtrip_counterexample :
    containsSeq (jsStr "[CC-") (jsStr "yes") = false ∧
    jsLength (formatMessage (jsStr "abc123") .Notification (jsStr "yes")) ≤ 1500 ∧
    (parseMessage (formatMessage (jsStr "abc123") .Notification (jsStr "yes"))).sessionId
      = some (jsStr "abc123") ∧
    parseMessage (formatMessage (jsStr "abc123") .Notification (jsStr "yes")) ≠
      ⟨some (jsStr "abc123"), jsStr "yes"⟩ := by
  refine ⟨by decide, by decide, by decide, by decide⟩

/-- Dropping while a predicate holds is the identity when the head, if any,
fails the predicate. -/
theorem dropWhile_of_headOpt_false {p : Nat → Bool} {l : List Nat} {a : Nat}
    (h : l.head? = some a) (ha : p a = false) : l.dropWhile p = l := by
  cases l with
  | nil => rfl
  | cons b t =>
    injection h with h
    subst h
    exact dropWhile_of_head_false ha

/-- Matching `ccMatch` on a well-formed `[CC-<id>] <rest>` string recovers the id and
the rest (after the greedy whitespace). -/
theorem ccMatch_roundtrip (id Z : JSString) (hne : id ≠ [])
    (hhex : id.all isHexDigitU = true) :
    ccMatch (91 :: 67 :: 67 :: 45 :: (id ++ 93 :: 32 :: Z)) =
      some (id, Z.dropWhile isJsWhitespace) := by
  have htw : (id ++ 93 :: 32 :: Z).takeWhile isHexDigitU = id := takeWhile_hex_id hhex
  show (if (ciEqU 91 91 && ciEqU 67 67 && ciEqU 67 67 && ciEqU 45 45) = true then
      (match (id ++ 93 :: 32 :: Z).drop
          ((id ++ 93 :: 32 :: Z).takeWhile isHexDigitU).length with
       | x :: rest3 =>
           if (x == 93 && !((id ++ 93 :: 32 :: Z).takeWhile isHexDigitU).isEmpty) = true
           then some ((id ++ 93 :: 32 :: Z).takeWhile isHexDigitU,
                      rest3.dropWhile isJsWhitespace)
           else none
       | [] => none)
    else none) = some (id, Z.dropWhile isJsWhitespace)
  rw [if_pos (by decide), htw, List.drop_left]
  show (if ((93 : Nat) == 93 && !id.isEmpty) = true then
      some (id, (32 :: Z).dropWhile isJsWhitespace) else none) =
    some (id, Z.dropWhile isJsWhitespace)
  rw [if_pos (by simp [List.isEmpty_iff, hne])]
  have h32 : (32 :: Z).dropWhile isJsWhitespace = Z.dropWhile isJsWhitespace := by
    rw [List.dropWhile_cons, if_pos (by decide)]
  rw [h32]

/-- Parsing a well-formed `[CC-<id>] <rest>` string, when the rest
starts and ends with non-whitespace. -/
theorem parseMessage_prefixed (id Z : JSString) (hne : id ≠ [])
    (hhex : id.all isHexDigitU = true)
    (hhead : ∀ u, Z.head? = some u → isJsWhitespace u = false)
    (hlast : ∀ u, Z.getLast? = some u → isJsWhitespace u = false) :
    parseMessage (91 :: 67 :: 67 :: 45 :: (id ++ 93 :: 32 :: Z)) =
      ⟨some id, Z⟩ := by
  unfold parseMessage
  rw [ccMatch_roundtrip id Z hne hhex]
  have hd : Z.dropWhile isJsWhitespace = Z := by
    cases hz : Z.head? with
    | none =>
      cases Z with
      | nil => rfl
      | cons a t => exact absurd hz (by simp)
    | some u => exact dropWhile_of_headOpt_false hz (hhead u hz)
  rw [hd]
  show (⟨some id, jsTrim Z⟩ : ParsedSMS) = ⟨some id, Z⟩
  rw [jsTrim_eq_self hhead hlast]

/-- C2 as amended: for a non-empty hexadecimal session id and a formatted
form within the length limit, `parseMessage` applied to
`formatMessage id event text` recovers `sessionId = id` exactly, and the
response field is the formatted remainder — emoji, header, body and footer —
rather than the bare text. (For a non-hex id the prefix regex does not match
at all and no sessionId is recovered.) -/
theorem roundtrip_amended (id : JSString) (event : HookEvent) (text : JSString)
    (hne : id ≠ []) (hhex : id.all isHexDigitU = true)
    (_hcc : containsSeq (jsStr "[CC-") text = false)
    (hlen : jsLength id + jsLength text + jsLength (getEventEmoji event) +
      jsLength (getEventHeader event) + 35 ≤ 1500) :
    parseMessage (formatMessage id event text) =
      ⟨some id, getEventEmoji event ++ jsStr " " ++ getEventHeader event ++
        jsStr "\n\n" ++ text ++ jsStr "\n\nReply with your response"⟩ := by
  have e1 : (jsStr "[CC-").length = 4 := rfl
  have e2 : (jsStr "] ").length = 2 := rfl
  have e3 : (jsStr " ").length = 1 := rfl
  have e4 : (jsStr "\n\n").length = 2 := rfl
  have e5 : (jsStr "\n\nReply with your response").length = 26 := rfl
  have hbranch : ¬ (jsLength ((jsStr "[CC-" ++ id ++ jsStr "] ") ++
      getEventEmoji event ++ jsStr " " ++ getEventHeader event ++ jsStr "\n\n" ++
      text ++ jsStr "\n\nReply with your response") > MAX_MESSAGE_LENGTH) := by
    simp only [jsLength, MAX_MESSAGE_LENGTH, List.length_append, e1, e2, e3, e4, e5]
    simp only [jsLength] at hlen
    omega
  have hfull : formatMessage id event text = (jsStr "[CC-" ++ id ++ jsStr "] ") ++
      getEventEmoji event ++ jsStr " " ++ getEventHeader event ++ jsStr "\n\n" ++
      text ++ jsStr "\n\nReply with your response" := by
    unfold formatMessage
    simp only []
    rw [if_neg hbranch]
  rw [hfull]
  have hshape : (jsStr "[CC-" ++ id ++ jsStr "] ") ++ getEventEmoji event ++
      jsStr " " ++ getEventHeader event ++ jsStr "\n\n" ++ text ++
      jsStr "\n\nReply with your response" =
      91 :: 67 :: 67 :: 45 :: (id ++ 93 :: 32 ::
        (getEventEmoji event ++ jsStr " " ++ getEventHeader event ++ jsStr "\n\n" ++
          text ++ jsStr "\n\nReply with your response")) := by
    show ([91, 67, 67, 45] ++ id ++ [93, 32]) ++ getEventEmoji event ++ jsStr " " ++
        getEventHeader event ++ jsStr "\n\n" ++ text ++
        jsStr "\n\nReply with your response" = _
    simp [List.append_assoc]
  rw [hshape]
  refine parseMessage_prefixed id _ hne hhex ?_ ?_
  · cases event <;>
      (intro u hu
       have h' : some _ = some u := hu
       injection h' with he
       rw [← he]; decide)
  · intro u hu
    rw [List.getLast?_append] at hu
    have h' : some 101 = some u := hu
    injection h' with he
    rw [← he]; decide

/-- Witness for C2 (amended) at a concrete hex id and text. -/
theorem roundtrip_amended_witness :
    parseMessage (formatMessage (jsStr "abc123") .Notification (jsStr "yes")) =
      ⟨some (jsStr "abc123"), getEventEmoji .Notification ++ jsStr " " ++
        getEventHeader .Notification ++ jsStr "\n\n" ++ jsStr "yes" ++
        jsStr "\n\nReply with your response"⟩ :=
  roundtrip_amended (jsStr "abc123") .Notification (jsStr "yes")
    (by decide) (by decide) (by decide) (by decide)

end CCA
